import Mathlib

/-!
Verification of `accounts_retriever.py` (cloudtools/cloudsweeper).

The script iterates the external mapping `BRKT_EMPLOYEE_ACCOUNTS` with
`iteritems()` (Python 2), builds one `owner` dict per entry, serializes the
list with `json.dumps(account_list, indent=4, sort_keys=True)` and writes the
result to the `--output` path (default `./aws_accounts.json`).

The mapping is modelled by its iteration sequence: a list of
(name, account-identifier) pairs, as yielded by `iteritems()`.  The JSON
serialization below follows the Python 2.7 `json` package: with a non-None
`indent` the pure-Python encoder is used, the item separator keeps its default
value of comma followed by one space, and `sort_keys=True` sorts each object's
keys before emission.
-/

namespace AccountsRetriever

/-- Lowercase hexadecimal digit, as emitted by the json encoder. -/
def hexDigit (n : Nat) : Char :=
  if n < 10 then Char.ofNat (48 + n) else Char.ofNat (87 + n)

/-- Four lowercase hex digits, the payload of a JSON unicode escape. -/
def hex4 (n : Nat) : String :=
  String.mk [hexDigit (n / 4096 % 16), hexDigit (n / 256 % 16),
             hexDigit (n / 16 % 16), hexDigit (n % 16)]

/-- One character as escaped by `json`'s `encode_basestring_ascii` (the
`ensure_ascii` default): backslash and double quote get short escapes, the
five named control characters likewise, printable ASCII (space through tilde)
passes through, and every other character becomes unicode escapes (a
surrogate pair beyond the basic multilingual plane). -/
def escapeChar (c : Char) : String :=
  if c = '\\' then "\\\\"
  else if c = '"' then "\\\""
  else if c = Char.ofNat 8 then "\\b"
  else if c = Char.ofNat 12 then "\\f"
  else if c = '\n' then "\\n"
  else if c = Char.ofNat 13 then "\\r"
  else if c = '\t' then "\\t"
  else if 32 ≤ c.toNat ∧ c.toNat ≤ 126 then String.singleton c
  else if c.toNat < 65536 then "\\u" ++ hex4 c.toNat
  else
    let v := c.toNat - 65536
    "\\u" ++ hex4 (55296 + v / 1024) ++ "\\u" ++ hex4 (56320 + v % 1024)

/-- JSON encoding of a string value: escaped content between double quotes. -/
def encodeString (s : String) : String :=
  "\"" ++ String.join (s.data.map escapeChar) ++ "\""

/-- A run of `n` spaces, the indentation prefix produced by `indent=4` at
depth `n / 4`. -/
def pad (n : Nat) : String :=
  String.mk (List.replicate n ' ')

/-- Lexicographic order on character sequences: the comparison Python 2
applies to the keys of an object when `sort_keys=True`. -/
def charsLt : List Char → List Char → Bool
  | [], [] => false
  | [], _ :: _ => true
  | _ :: _, [] => false
  | c :: cs, d :: ds =>
    if c.toNat < d.toNat then true
    else if d.toNat < c.toNat then false
    else charsLt cs ds

/-- String order used for key sorting. -/
def strLt (s t : String) : Bool :=
  charsLt s.data t.data

/-- Insert a key-value pair into a list sorted by key. -/
def insertKV (p : String × String) : List (String × String) → List (String × String)
  | [] => [p]
  | q :: qs => if strLt p.1 q.1 then p :: q :: qs else q :: insertKV p qs

/-- Sort an object's key-value pairs by key, as `sort_keys=True` does.  The
objects built by this script have the two distinct keys "name" and "id", so
the sorted sequence is uniquely determined. -/
def sortKVs : List (String × String) → List (String × String)
  | [] => []
  | p :: ps => insertKV p (sortKVs ps)

/-- Serialization of one object (a dict of string keys to string values) by
`json.dumps(..., indent=4, sort_keys=True)` at nesting depth `level`.
Following the Python 2.7 encoder: keys sorted, a newline plus
`4 * (level + 1)` spaces after the opening brace and after each item
separator, the item separator is a comma followed by one space (its default
is unchanged by `indent`), the key separator is colon space, and the closing
brace sits after a newline at `4 * level` spaces. -/
def dumpDict (level : Nat) (kvs : List (String × String)) : String :=
  let ks := sortKVs kvs
  if ks.isEmpty then "\x7b\x7d"
  else
    let inner := "\n" ++ pad (4 * (level + 1))
    "\x7b" ++ inner ++
      String.intercalate (", " ++ inner)
        (ks.map (fun kv => encodeString kv.1 ++ ": " ++ encodeString kv.2)) ++
      "\n" ++ pad (4 * level) ++ "\x7d"

/-- Serialization of the top-level array of objects by
`json.dumps(..., indent=4, sort_keys=True)`: the empty list is `[]`, and
otherwise items are emitted in list order at depth 1, separated by a comma,
a space, a newline and four spaces, with the closing bracket at depth 0. -/
def dumpArray (items : List (List (String × String))) : String :=
  if items.isEmpty then "[]"
  else
    let inner := "\n" ++ pad 4
    "[" ++ inner ++ String.intercalate (", " ++ inner) (items.map (dumpDict 1)) ++ "\n]"

/-- The `owner` dict built for one (name, account) pair at lines 28-31:
keys "name" and "id", with the identifier stored unchanged under "id". -/
def owner (name account : String) : List (String × String) :=
  [("name", name), ("id", account)]

/-- The `account_list`: one owner record per mapping entry, in iteration
order (lines 26-32). -/
def accountList (mapping : List (String × String)) : List (List (String × String)) :=
  mapping.map (fun p => owner p.1 p.2)

/-- The serialized text `accounts_json`, that is
`json.dumps(account_list, indent=4, sort_keys=True)` (line 33). -/
def accountsJson (mapping : List (String × String)) : String :=
  dumpArray (accountList mapping)

/-- Value stored under key `k` in an object, first match. -/
def lookupKey (k : String) (kvs : List (String × String)) : Option String :=
  (kvs.find? (fun kv => kv.1 == k)).map (fun kv => kv.2)

/-!
## Runtime model

The effectful part of the script is lines 34-36 (`open`, `write`, `close`)
plus the module-level import of `BRKT_EMPLOYEE_ACCOUNTS` and the `argparse`
entry point.  The environment records which of the fallible operations
succeed; the file system is an association list from path to content whose
lookup takes the most recent binding.
-/

/-- A run ends either normally or with one of the failures the spec's
taxonomy names: `fileAccessError` stands for the `IOError` raised by
`open(output, 'w')` or `output_file.write` on the output file,
`configurationError` for a failure importing or accessing the external
account mapping, and `usageError` for `argparse` rejecting the command line
(it exits with status 2). -/
inductive PyErr where
  | fileAccessError
  | configurationError
  | usageError
deriving DecidableEq, Repr

/-- File system: paths bound to contents, most recent binding first. -/
abbrev FS := List (String × String)

/-- Content at `p`, if any. -/
def fsGet (fs : FS) (p : String) : Option String :=
  (fs.find? (fun e => e.1 == p)).map (fun e => e.2)

/-- Bind path `p` to content `v`. -/
def fsSet (fs : FS) (p v : String) : FS :=
  (p, v) :: fs

/-- Which fallible operations of one run succeed: `mappingOk` is the import
and read of `BRKT_EMPLOYEE_ACCOUNTS`, `openOk` is `open(output, 'w')`
(false when permissions or a missing directory make the path unopenable),
`writeOk` is `output_file.write` (false when the opened file cannot take the
data, for instance a full device). -/
structure Env where
  mappingOk : Bool
  openOk : Bool
  writeOk : Bool
deriving DecidableEq, Repr

/-- Outcome of one run: final result, final file system, how many times the
output file was opened and written, and whether the output file handle is
still open when control leaves the script. -/
structure RunResult where
  result : Except PyErr Unit
  fs : FS
  openAttempts : Nat
  writeAttempts : Nat
  handleOpen : Bool

/-- The function `main(output)` (lines 14-36).  The account list and its serialization
are pure.  `open(output, 'w')` truncates the file on success and raises on
failure; a raised error propagates immediately (there is no handler).  The
`write` on line 35 stores the serialized text; if it raises, line 36 never
runs, so the handle stays open — the function has no `with` block and no
`try/finally`. -/
def main (env : Env) (mapping : List (String × String)) (output : String)
    (fs : FS) : RunResult :=
  let js := accountsJson mapping
  if env.openOk then
    let fs1 := fsSet fs output ""
    if env.writeOk then
      { result := .ok (), fs := fsSet fs1 output js,
        openAttempts := 1, writeAttempts := 1, handleOpen := false }
    else
      { result := .error .fileAccessError, fs := fs1,
        openAttempts := 1, writeAttempts := 1, handleOpen := true }
  else
    { result := .error .fileAccessError, fs := fs,
      openAttempts := 1, writeAttempts := 0, handleOpen := false }

/-- The import of `BRKT_EMPLOYEE_ACCOUNTS` (lines 9-11) followed by
`main` on a resolved output path: a failed import propagates before anything
else runs. -/
def runProgram (env : Env) (mapping : List (String × String)) (output : String)
    (fs : FS) : RunResult :=
  if env.mappingOk then
    main env mapping output fs
  else
    { result := .error .configurationError, fs := fs,
      openAttempts := 0, writeAttempts := 0, handleOpen := false }

/-- Process exit status: 0 on success, 2 for an `argparse` rejection,
otherwise the interpreter's nonzero status for an uncaught exception. -/
def exitCode : Except PyErr Unit → Nat
  | .ok _ => 0
  | .error .usageError => 2
  | .error _ => 1

/-- The output path is writable: it can be opened for writing and the
serialized text can then be written to it. -/
def pathWritable (env : Env) : Bool :=
  env.openOk && env.writeOk

/-!
## Theorems
-/

/-- Two concrete strings may be merged on the left of an append. -/
theorem append_merge (s t u x : String) (h : s ++ t = u) : s ++ (t ++ x) = u ++ x := by
  rw [← String.append_assoc, h]

/-- Building an owner record is injective on (name, identifier) pairs. -/
theorem owner_injective : Function.Injective (fun q : String × String => owner q.1 q.2) := by
  intro q1 q2 h
  simp only [owner, List.cons.injEq, Prod.mk.injEq, and_true, true_and] at h
  exact Prod.ext_iff.mpr ⟨h.1, h.2⟩

/-- C1: on an iteration sequence with distinct (name, identifier) entries,
`account_list` holds exactly one owner record per entry: its length is the
number of entries, the record of each entry occurs in it exactly once, and
every element of it is the record of some entry. -/
theorem c1_every_entry_one_record (m : List (String × String)) (hm : m.Nodup) :
    (accountList m).length = m.length ∧
    (accountList m).Nodup ∧
    (∀ p ∈ m, owner p.1 p.2 ∈ accountList m) ∧
    (∀ r ∈ accountList m, ∃ p ∈ m, r = owner p.1 p.2) := by
  refine ⟨by simp [accountList], hm.map owner_injective, fun p hp => ?_, fun r hr => ?_⟩
  · exact List.mem_map_of_mem _ hp
  · obtain ⟨p, hp, hpr⟩ := List.mem_map.mp hr
    exact ⟨p, hp, hpr.symm⟩

/-- Witness for C1 on a concrete two-entry mapping. -/
theorem c1_every_entry_one_record_witness :
    ([("qa", "475063612724"), ("dev", "1")] : List (String × String)).Nodup ∧
    ((accountList [("qa", "475063612724"), ("dev", "1")]).length =
        ([("qa", "475063612724"), ("dev", "1")] : List (String × String)).length ∧
      (accountList [("qa", "475063612724"), ("dev", "1")]).Nodup ∧
      (∀ p ∈ ([("qa", "475063612724"), ("dev", "1")] : List (String × String)),
        owner p.1 p.2 ∈ accountList [("qa", "475063612724"), ("dev", "1")]) ∧
      (∀ r ∈ accountList [("qa", "475063612724"), ("dev", "1")],
        ∃ p ∈ ([("qa", "475063612724"), ("dev", "1")] : List (String × String)),
          r = owner p.1 p.2)) :=
  ⟨by decide, c1_every_entry_one_record _ (by decide)⟩

/-- C2: each owner record serializes with its keys in alphabetical order —
the "id" member before the "name" member — behind 8 spaces of indentation at
object depth (two indent steps of 4 spaces), with the closing brace behind
4 spaces. -/
theorem c2_keys_sorted_indent4 (n a : String) :
    dumpDict 1 (owner n a) =
      "\x7b" ++ "\n" ++ "        " ++ "\"id\"" ++ ": " ++ encodeString a ++ ", " ++ "\n" ++
      "        " ++ "\"name\"" ++ ": " ++ encodeString n ++ "\n" ++ "    " ++ "\x7d" := by
  have hs : sortKVs (owner n a) = [("id", a), ("name", n)] := rfl
  have h1 : encodeString "id" = "\"id\"" := rfl
  have h2 : encodeString "name" = "\"name\"" := rfl
  have hp8 : pad 8 = "        " := rfl
  have hp4 : pad 4 = "    " := rfl
  have hm1 : ∀ x : String, "\"id\"" ++ (": " ++ x) = "\"id\": " ++ x :=
    fun x => append_merge _ _ _ x rfl
  have hm2 : ∀ x : String, "\"name\"" ++ (": " ++ x) = "\"name\": " ++ x :=
    fun x => append_merge _ _ _ x rfl
  have hm3 : ∀ x : String, "\x7b\n        " ++ ("\"id\": " ++ x) = "\x7b\n        \"id\": " ++ x :=
    fun x => append_merge _ _ _ x rfl
  have hm4 : ∀ x : String, ", \n        " ++ ("\"name\": " ++ x) = ", \n        \"name\": " ++ x :=
    fun x => append_merge _ _ _ x rfl
  simp [dumpDict, hs, h1, h2, hp8, hp4, String.intercalate, String.intercalate.go,
    String.append_assoc, hm1, hm2, hm3, hm4]

/-- C3 (counterexample): on the singleton mapping the serialized text is not
the text the claim gives.  Python 2's json module keeps its default item
separator — a comma followed by one space — even under `indent=4`, so the
line holding the "id" member ends with a comma and one space, which the
claimed text lacks. -/
theorem c3_claimed_text_refuted :
    accountsJson [("qa", "475063612724")] ≠
      "[\n    \x7b\n        \"id\": \"475063612724\",\n        \"name\": \"qa\"\n    \x7d\n]" := by
  decide

/-- C3 (amended): on the singleton mapping, the exporter writes exactly the
claimed text except that a space follows the comma after the "id" member
(Python 2's json item separator is comma-space even with `indent=4`); there
is no trailing newline.  The second conjunct shows the file at the output
path holds exactly this text after a successful run. -/
theorem c3_exact_output (output : String) (fs : FS) :
    accountsJson [("qa", "475063612724")] =
      "[\n    \x7b\n        \"id\": \"475063612724\", \n        \"name\": \"qa\"\n    \x7d\n]" ∧
    fsGet (main ⟨true, true, true⟩ [("qa", "475063612724")] output fs).fs output =
      some "[\n    \x7b\n        \"id\": \"475063612724\", \n        \"name\": \"qa\"\n    \x7d\n]" := by
  refine ⟨rfl, ?_⟩
  simp [main, fsGet, fsSet, List.find?]
  rfl

/-- C4: on the empty mapping the exporter writes exactly the two characters
of an empty JSON array, and that is what the file holds after a successful
run. -/
theorem c4_empty_mapping_brackets (output : String) (fs : FS) :
    accountsJson [] = "[]" ∧
    fsGet (main ⟨true, true, true⟩ [] output fs).fs output = some "[]" := by
  refine ⟨rfl, ?_⟩
  simp [main, fsGet, fsSet, List.find?]
  rfl

/-- C5: the top-level order of the array follows the mapping's iteration
order: the record at position `i` of `account_list` is the owner record of
the pair at position `i` of the iteration sequence, and position `i` of the
serialized-items list that the array serialization joins in order is that
record's serialization. -/
theorem c5_array_order_follows_iteration (m : List (String × String)) (i : Nat)
    (h1 : i < m.length) (h2 : i < (accountList m).length)
    (h3 : i < ((accountList m).map (dumpDict 1)).length) :
    (accountList m).get ⟨i, h2⟩ = owner (m.get ⟨i, h1⟩).1 (m.get ⟨i, h1⟩).2 ∧
    ((accountList m).map (dumpDict 1)).get ⟨i, h3⟩ =
      dumpDict 1 (owner (m.get ⟨i, h1⟩).1 (m.get ⟨i, h1⟩).2) := by
  constructor <;> simp [accountList]

/-- Witness for C5 at position 1 of a concrete two-entry mapping. -/
theorem c5_array_order_follows_iteration_witness :
    1 < ([("qa", "475063612724"), ("dev", "1")] : List (String × String)).length ∧
    1 < (accountList [("qa", "475063612724"), ("dev", "1")]).length ∧
    1 < ((accountList [("qa", "475063612724"), ("dev", "1")]).map (dumpDict 1)).length ∧
    ((accountList [("qa", "475063612724"), ("dev", "1")]).get ⟨1, by decide⟩ =
        owner "dev" "1" ∧
      ((accountList [("qa", "475063612724"), ("dev", "1")]).map (dumpDict 1)).get ⟨1, by decide⟩ =
        dumpDict 1 (owner "dev" "1")) :=
  ⟨by decide, by decide, by decide,
    c5_array_order_follows_iteration [("qa", "475063612724"), ("dev", "1")] 1
      (by decide) (by decide) (by decide)⟩

/-- C6: when the output path cannot be opened for writing (permissions or a
missing directory make `open(output, 'w')` raise), the program ends with a
nonzero exit status and the file system is exactly as before: no partial
file appears and a pre-existing file at the path keeps its content. -/
theorem c6_unwritable_untouched (env : Env) (m : List (String × String))
    (output : String) (fs : FS)
    (hmap : env.mappingOk = true) (hopen : env.openOk = false) :
    exitCode (runProgram env m output fs).result ≠ 0 ∧
    (runProgram env m output fs).fs = fs := by
  simp [runProgram, main, hmap, hopen, exitCode]

/-- Witness for C6: an unwritable path with a pre-existing file. -/
theorem c6_unwritable_untouched_witness :
    (Env.mk true false true).mappingOk = true ∧
    (Env.mk true false true).openOk = false ∧
    exitCode (runProgram (Env.mk true false true) [("qa", "475063612724")]
      "./aws_accounts.json" [("./aws_accounts.json", "old content")]).result ≠ 0 ∧
    (runProgram (Env.mk true false true) [("qa", "475063612724")]
      "./aws_accounts.json" [("./aws_accounts.json", "old content")]).fs =
      [("./aws_accounts.json", "old content")] :=
  ⟨rfl, rfl,
    (c6_unwritable_untouched (Env.mk true false true) [("qa", "475063612724")]
      "./aws_accounts.json" [("./aws_accounts.json", "old content")] rfl rfl).1,
    (c6_unwritable_untouched (Env.mk true false true) [("qa", "475063612724")]
      "./aws_accounts.json" [("./aws_accounts.json", "old content")] rfl rfl).2⟩

/-- C7 (counterexample): an execution on which the claim fails.  `main` has
no `with` block and no `try/finally`: when the `write` on line 35 raises,
the `close()` on line 36 never runs, so this error-propagating execution
leaves the exporter with the output file handle still open. -/
theorem c7_handle_left_open :
    (main (Env.mk true true false) [("qa", "475063612724")] "./aws_accounts.json" []).handleOpen
        = true ∧
    exitCode (main (Env.mk true true false) [("qa", "475063612724")]
      "./aws_accounts.json" []).result ≠ 0 := by
  exact ⟨rfl, by simp [main, exitCode]⟩

/-- C7 (amended): on a successful execution the handle opened on line 34 is
closed (line 36) before `main` returns, and when the open itself fails no
handle is ever created; but when the write fails after a successful open,
the error propagates with the handle still open — release is not guaranteed
on error propagation. -/
theorem c7_handle_release_amended (env : Env) (m : List (String × String))
    (output : String) (fs : FS) :
    ((main env m output fs).result = .ok () → (main env m output fs).handleOpen = false) ∧
    (env.openOk = false → (main env m output fs).handleOpen = false) ∧
    (env.openOk = true → env.writeOk = false →
      (main env m output fs).handleOpen = true ∧
      exitCode (main env m output fs).result ≠ 0) := by
  obtain ⟨mo, oo, wo⟩ := env
  cases oo <;> cases wo <;> simp [main, exitCode]

/-- Witness for C7 (amended), on the branch where the write fails. -/
theorem c7_handle_release_amended_witness :
    (main (Env.mk true true false) [] "./aws_accounts.json" []).handleOpen = true ∧
    exitCode (main (Env.mk true true false) [] "./aws_accounts.json" []).result ≠ 0 :=
  (c7_handle_release_amended (Env.mk true true false) [] "./aws_accounts.json" []).2.2 rfl rfl

/-- C8: with the mapping accessible, the run fails with the file-access
error exactly when the output path is not writable (the open or the write
on it raises); a mapping-access failure surfaces unmodified as the
configuration error; these are the only failures of the exporter, and
nothing is retried: the output file is opened at most once and written at
most once. -/
theorem c8_error_taxonomy (env : Env) (m : List (String × String))
    (output : String) (fs : FS) :
    ((runProgram env m output fs).result = .error .fileAccessError ↔
      env.mappingOk = true ∧ pathWritable env = false) ∧
    ((runProgram env m output fs).result = .error .configurationError ↔
      env.mappingOk = false) ∧
    (runProgram env m output fs).openAttempts ≤ 1 ∧
    (runProgram env m output fs).writeAttempts ≤ 1 := by
  obtain ⟨mo, oo, wo⟩ := env
  cases mo <;> cases oo <;> cases wo <;> simp [runProgram, main, pathWritable]

/-- Witness for C8: an unopenable path yields the file-access error. -/
theorem c8_error_taxonomy_witness :
    (runProgram (Env.mk true false true) [] "./aws_accounts.json" []).result =
      .error .fileAccessError :=
  ((c8_error_taxonomy (Env.mk true false true) [] "./aws_accounts.json" []).1).mpr
    ⟨rfl, rfl⟩

/-- C10: the exporter is deterministic — two successful runs on the same
iteration sequence leave the same byte content at their output paths,
namely the serialization of that sequence, whatever the environment, path,
or prior file system; and each identifier reaches the "id" member of its
record unchanged, the name likewise, with no conversion or validation. -/
theorem c10_deterministic_passthrough (env1 env2 : Env) (m : List (String × String))
    (out1 out2 : String) (fs1 fs2 : FS)
    (h1 : (main env1 m out1 fs1).result = .ok ())
    (h2 : (main env2 m out2 fs2).result = .ok ()) :
    fsGet (main env1 m out1 fs1).fs out1 = some (accountsJson m) ∧
    fsGet (main env1 m out1 fs1).fs out1 = fsGet (main env2 m out2 fs2).fs out2 ∧
    (∀ p ∈ m, lookupKey "id" (owner p.1 p.2) = some p.2 ∧
      lookupKey "name" (owner p.1 p.2) = some p.1) := by
  obtain ⟨mo1, oo1, wo1⟩ := env1
  obtain ⟨mo2, oo2, wo2⟩ := env2
  cases oo1 <;> cases wo1 <;> simp [main] at h1
  cases oo2 <;> cases wo2 <;> simp [main] at h2
  refine ⟨?_, ?_, fun p hp => ⟨rfl, rfl⟩⟩ <;>
    simp [main, fsGet, fsSet, List.find?]

/-- Witness for C10: two successful runs at different paths over different
prior file systems. -/
theorem c10_deterministic_passthrough_witness :
    (main (Env.mk true true true) [("qa", "475063612724")] "a.json" []).result = .ok () ∧
    (main (Env.mk true true true) [("qa", "475063612724")] "b.json"
      [("b.json", "stale")]).result = .ok () ∧
    (fsGet (main (Env.mk true true true) [("qa", "475063612724")] "a.json" []).fs "a.json" =
        some (accountsJson [("qa", "475063612724")]) ∧
      fsGet (main (Env.mk true true true) [("qa", "475063612724")] "a.json" []).fs "a.json" =
        fsGet (main (Env.mk true true true) [("qa", "475063612724")] "b.json"
          [("b.json", "stale")]).fs "b.json" ∧
      (∀ p ∈ ([("qa", "475063612724")] : List (String × String)),
        lookupKey "id" (owner p.1 p.2) = some p.2 ∧
        lookupKey "name" (owner p.1 p.2) = some p.1)) :=
  ⟨rfl, rfl,
    c10_deterministic_passthrough (Env.mk true true true) (Env.mk true true true)
      [("qa", "475063612724")] "a.json" "b.json" [] [("b.json", "stale")] rfl rfl⟩

end AccountsRetriever
